import Mathlib

set_option autoImplicit false

/-!
Shallow embedding of `src/falcon_sentry/sentry.py` (falcon-sentry): the
`Sentry` reporting-client wrapper and the `SentryMiddleware` request
lifecycle, together with the parts of the external `raven` client the
source uses (context store, capture calls, logger). Python dictionaries
are association lists without duplicate keys; Python object attributes
that may be unassigned are `Option`-wrapped; a Python exception path is
an `Except.error` carrying the state reached so far.
-/

namespace FalconSentry

/-- A Python string-keyed dictionary: an association list without duplicate
keys, insertion order kept (as Python dicts do). -/
abbrev Dict (V : Type) : Type := List (String × V)

/-- Python `d[k]` lookup (`None`-returning `d.get(k)` form). -/
def dictGet {V : Type} : Dict V → String → Option V
  | [], _ => none
  | (k1, v) :: rest, k => if k1 = k then some v else dictGet rest k

/-- Python `d[k] = v`: replace the binding of `k` in place, or append a new
binding at the end. -/
def dictSet {V : Type} : Dict V → String → V → Dict V
  | [], k, v => [(k, v)]
  | (k1, v1) :: rest, k, v =>
    if k1 = k then (k, v) :: rest else (k1, v1) :: dictSet rest k v

/-- Python `d.update(d2)`: set every binding of `d2` into `d`, left to
right (later keys win on a clash). -/
def dictUpdate {V : Type} (d d2 : Dict V) : Dict V :=
  d2.foldl (fun acc kv => dictSet acc kv.1 kv.2) d

/-- Values stored in the diagnostic context dictionaries (strings, numbers,
Python `None`, nested dictionaries). -/
inductive Val where
  | vStr : String → Val
  | vNat : Nat → Val
  | vNone : Val
  | vDict : List (String × Val) → Val

/-- One capture delivered to the external raven transport: the `level` and
`extra` keyword arguments of a `captureException` call. -/
structure Capture where
  level : String
  extra : Dict Val

/-- The external `raven.Client` as this repository uses it: the context
store (its `request` and `user` slots), the log of exception captures and
message captures, the client logger, and the stream of event ids the
transport will return for successive capture calls. -/
structure RavenClient where
  contextRequest : Option (Dict Val)
  contextUser : Option Val
  captured : List Capture
  messages : List String
  loggedErrors : List String
  nextEventIds : List (Option String)

/-- `raven.Client.captureException(level=..., extra=...)`: deliver the
capture and return the event id the transport produced (`none` models a
`null` id). -/
def RavenClient.captureException (c : RavenClient) (level : String)
    (extra : Dict Val) : RavenClient × Option String :=
  ({ c with captured := c.captured ++ [⟨level, extra⟩],
            nextEventIds := c.nextEventIds.tail },
   c.nextEventIds.headD none)

/-- `raven.Client.captureMessage(msg)`. -/
def RavenClient.captureMessage (c : RavenClient) (msg : String) :
    RavenClient × Option String :=
  ({ c with messages := c.messages ++ [msg],
            nextEventIds := c.nextEventIds.tail },
   c.nextEventIds.headD none)

/-- `raven.Client.http_context(data)`: raven merges `data` into the context
under the `request` key, and its merge replaces the `request` slot (only
`tags` and `extra` merge per key in raven). -/
def RavenClient.http_context (c : RavenClient) (data : Dict Val) : RavenClient :=
  { c with contextRequest := some data }

/-- `raven.Client.user_context(data)`. -/
def RavenClient.user_context (c : RavenClient) (data : Val) : RavenClient :=
  { c with contextUser := some data }

/-- `raven.Client.context.clear()`: empty the context store. -/
def RavenClient.contextClear (c : RavenClient) : RavenClient :=
  { c with contextRequest := none, contextUser := none }

/-- The state of a `Sentry` instance: the wrapped raven client and the
`last_event_id` attribute. `none` models an attribute that has never been
assigned (reading it raises `AttributeError`); `some x` an attribute holding
`x`, where `x = none` models Python `None`. -/
structure SentryState where
  client : RavenClient
  last_event_id : Option (Option String)

/-- `Sentry.__init__`: stores the client. Note that `last_event_id` is not
assigned anywhere in `__init__`. -/
def Sentry.init (client : RavenClient) : SentryState :=
  { client := client, last_event_id := none }

/-- `Sentry.http_context(data)`: read the current context, take its
`request` slot (empty dict when absent), update it with `data`, and hand
the merged dict back to `raven.Client.http_context`. -/
def Sentry.http_context (s : SentryState) (data : Dict Val) : SentryState :=
  let req_context := (s.client.contextRequest).getD []
  { s with client := s.client.http_context (dictUpdate req_context data) }

/-- `Sentry.user_context(data)`. -/
def Sentry.user_context (s : SentryState) (data : Val) : SentryState :=
  { s with client := s.client.user_context data }

/-- `Sentry.clear_context()`: clear the raven context store and assign
`last_event_id = None`. -/
def Sentry.clear_context (s : SentryState) : SentryState :=
  { s with client := s.client.contextClear, last_event_id := some none }

/-- `Sentry.captureException(...)`: capture through the raven client and
record the returned event id in `last_event_id`. -/
def Sentry.captureException (s : SentryState) (level : String)
    (extra : Dict Val) : SentryState × Option String :=
  let r := s.client.captureException level extra
  ({ s with client := r.1, last_event_id := some r.2 }, r.2)

/-- `Sentry.captureMessage(...)`: capture through the raven client and
record the returned event id in `last_event_id`. -/
def Sentry.captureMessage (s : SentryState) (msg : String) :
    SentryState × Option String :=
  let r := s.client.captureMessage msg
  ({ s with client := r.1, last_event_id := some r.2 }, r.2)

/-- `Sentry._log_exception(ex)`: log through the raven client logger. -/
def Sentry.log_exception (s : SentryState) (msg : String) : SentryState :=
  { s with client :=
      { s.client with loggedErrors := s.client.loggedErrors ++ [msg] } }

/-- Errors raised during falcon request handling, as the error handler
distinguishes them: `falcon.HTTPStatus` control-flow signals,
`falcon.HTTPError` coded errors (with their `code` attribute, `description`
attribute and `to_dict()` payload), and every other exception (with its
`str(ex)` representation). The `ident` field models Python object
identity. -/
inductive PyErr where
  | httpStatus (ident : Nat)
  | httpError (ident : Nat) (code : Option Nat) (descr : Option String)
      (to_dict : Dict Val)
  | unclassified (ident : Nat) (strRep : String)

/-- The `description` attribute of a falcon HTTP error. -/
def PyErr.description : PyErr → Option String
  | .httpError _ _ d _ => d
  | _ => none

/-- Python `ex.code or 500`: `None` and `0` are falsy, so both default to
`500`. -/
def orCode : Option Nat → Nat
  | none => 500
  | some 0 => 500
  | some n => n

/-- `falcon.HTTPInternalServerError(title=..., description=...)`: a fresh
`HTTPError` object with status code 500. -/
def HTTPInternalServerError (title descr : String) : PyErr :=
  .httpError 0 (some 500) (some descr)
    [("title", .vStr title), ("description", .vStr descr)]

/-- The handler returned by `Sentry.get_error_handler(only_500)`, as a state
transformer: given the raised error `ex` and the route `params`, it returns
the updated state and the error it re-raises. Note that the capture goes
through the raw raven client (`self.client.captureException`), not through
the recording wrapper `Sentry.captureException`. -/
def Sentry.get_error_handler (only_500 : Bool) (s : SentryState) (ex : PyErr)
    (params : Dict Val) : SentryState × PyErr :=
  match ex with
  | .httpStatus _ => (s, ex)
  | .httpError _ code _ to_dict =>
    let c := orCode code
    if only_500 && decide (c < 500) then (s, ex)
    else
      let level := if c < 500 then "errors" else "fatal"
      let extra := dictUpdate to_dict params
      let r := s.client.captureException level extra
      ({ s with client := r.1 }, ex)
  | .unclassified _ strRep =>
    let extra := params
    let raise_exc := HTTPInternalServerError "Unknown Error" strRep
    let r := s.client.captureException "fatal" extra
    ({ s with client := r.1 }, raise_exc)

/-- A falcon request, with the attributes `get_request_context` reads. -/
structure Request where
  protocol : String
  host : String
  path : String
  query_string : String
  params : Dict Val
  headers : Dict Val
  uri_template : Option String
  method : String
  env : Dict Val

/-- External helper `raven.utils.wsgi.get_environ` (outside this
repository): keeps only the `REMOTE_ADDR`, `SERVER_NAME` and `SERVER_PORT`
keys of a WSGI environ mapping. -/
def get_environ (env : Dict Val) : Dict Val :=
  ["REMOTE_ADDR", "SERVER_NAME", "SERVER_PORT"].foldl
    (fun acc k =>
      match dictGet env k with
      | some v => acc ++ [(k, v)]
      | none => acc) []

/-- `SentryMiddleware.get_request_context(req)`. -/
def get_request_context (req : Request) : Dict Val :=
  [("url", .vStr (req.protocol ++ "://" ++ req.host ++ req.path)),
   ("query_string", .vStr req.query_string),
   ("params", .vDict req.params),
   ("headers", .vDict req.headers),
   ("route", match req.uri_template with
             | some r => Val.vStr r
             | none => Val.vNone),
   ("method", .vStr req.method),
   ("env", .vDict (get_environ req.env))]

/-- A pluggable context loader `(request) -> mapping`; `Except.error`
models the loader raising an exception. -/
abbrev Loader : Type := Request → Except String Val

/-- Loader configuration given to `Sentry.__init__` by keyword
(`body_context_loader=...`, `user_context_loader=...`). -/
structure SentryConfig where
  body_context_loader : Option Loader
  user_context_loader : Option Loader

/-- The fields of `SentryMiddleware`, in the order of the positional
parameters of `SentryMiddleware.__init__(client, user_context_loader,
body_context_loader)`. -/
structure SentryMiddleware where
  user_context_loader : Option Loader
  body_context_loader : Option Loader

/-- The `Sentry.middleware` property:
`SentryMiddleware(self, self.body_context_loader, self.user_context_loader)`.
The arguments are positional, and `SentryMiddleware.__init__` takes
`(client, user_context_loader, body_context_loader)`, so the stored body
loader lands in the `user_context_loader` field and the stored user loader
in the `body_context_loader` field. -/
def Sentry.middleware (cfg : SentryConfig) : SentryMiddleware :=
  { user_context_loader := cfg.body_context_loader,
    body_context_loader := cfg.user_context_loader }

/-- First `try` block of `SentryMiddleware.process_request`: build the
request context, set its `body` key from the body loader when one is
configured, then attach via `Sentry.http_context`. A loader exception jumps
to the `except` clause: it is logged and `http_context` is never called. -/
def process_request_try1 (m : SentryMiddleware) (s : SentryState)
    (req : Request) : SentryState :=
  let req_context := get_request_context req
  match m.body_context_loader with
  | none => Sentry.http_context s req_context
  | some loader =>
    match loader req with
    | .ok body => Sentry.http_context s (dictSet req_context "body" body)
    | .error e => Sentry.log_exception s e

/-- Second `try` block of `SentryMiddleware.process_request`: invoke the
user loader when one is configured and attach its result via
`Sentry.user_context`; a loader exception is logged. -/
def process_request_try2 (m : SentryMiddleware) (s : SentryState)
    (req : Request) : SentryState :=
  match m.user_context_loader with
  | none => s
  | some loader =>
    match loader req with
    | .ok u => Sentry.user_context s u
    | .error e => Sentry.log_exception s e

/-- `SentryMiddleware.process_request(req)`: the two `try` blocks in
order. -/
def process_request (m : SentryMiddleware) (s : SentryState)
    (req : Request) : SentryState :=
  process_request_try2 m (process_request_try1 m s req) req

/-- A falcon response (its header mapping). -/
structure Response where
  headers : Dict Val

/-- A Python exception escaping the middleware. -/
inductive PyExc where
  | attributeError (name : String)

/-- Python truthiness of the `last_event_id` value: `None` and the empty
string are falsy. -/
def truthyEventId : Option String → Bool
  | none => false
  | some s => s != ""

/-- `SentryMiddleware.process_response(req, resp)`: read
`self.client.last_event_id` (an `AttributeError` when the attribute was
never assigned), set the `X-Sentry-ID` header when the value is truthy,
then call `clear_context`. On an exception the state reached so far is
kept, as in Python. -/
def process_response (s : SentryState) (resp : Response) :
    Except (PyExc × SentryState × Response) (SentryState × Response) :=
  match s.last_event_id with
  | none => .error (.attributeError "last_event_id", s, resp)
  | some eid =>
    let resp2 :=
      if truthyEventId eid then
        { resp with
            headers := dictSet resp.headers "X-Sentry-ID" (.vStr (eid.getD "")) }
      else resp
    .ok (Sentry.clear_context s, resp2)

/-! Concrete states and inputs used by the closed theorems below. -/

/-- A raven client with empty context and one pending event id. -/
def ravenExample : RavenClient :=
  { contextRequest := none, contextUser := none, captured := [],
    messages := [], loggedErrors := [], nextEventIds := [some "42"] }

/-- A Sentry state whose `last_event_id` attribute holds `None` (as after a
`clear_context` call). -/
def sExample : SentryState :=
  { client := ravenExample, last_event_id := some none }

/-- A small falcon request. -/
def reqExample : Request :=
  { protocol := "http", host := "h", path := "/p", query_string := "",
    params := [], headers := [], uri_template := some "/p",
    method := "GET", env := [] }

/-- An empty response. -/
def respExample : Response := { headers := [] }

/-! Dictionary lemmas. -/

/-- Looking up the key just set yields the value just set. -/
theorem dictGet_dictSet_same {V : Type} (d : Dict V) (k : String) (v : V) :
    dictGet (dictSet d k v) k = some v := by
  induction d with
  | nil => simp [dictSet, dictGet]
  | cons kv rest ih =>
    obtain ⟨k1, v1⟩ := kv
    by_cases h : k1 = k <;> simp [dictSet, dictGet, h, ih]

/-- Setting one key leaves the other keys unchanged. -/
theorem dictGet_dictSet_other {V : Type} (d : Dict V) (k k2 : String) (v : V)
    (h : k2 ≠ k) : dictGet (dictSet d k v) k2 = dictGet d k2 := by
  have h3 : k ≠ k2 := Ne.symm h
  induction d with
  | nil => simp [dictSet, dictGet, h3]
  | cons kv rest ih =>
    obtain ⟨k1, v1⟩ := kv
    by_cases h1 : k1 = k
    · subst h1
      simp [dictSet, dictGet, h3]
    · simp [dictSet, dictGet, h1, ih]

/-- Updating with a one-key dict is setting that key. -/
theorem dictUpdate_single {V : Type} (d : Dict V) (k : String) (v : V) :
    dictUpdate d [(k, v)] = dictSet d k v := rfl

/-! Claim theorems. -/

/-- C8: a control-flow status signal (`falcon.HTTPStatus`) makes no capture
call and is re-raised as the identical object with the state untouched; the
handler checks this case before every other classification branch. -/
theorem error_handler_httpStatus_passthrough (only_500 : Bool)
    (s : SentryState) (ident : Nat) (params : Dict Val) :
    Sentry.get_error_handler only_500 s (.httpStatus ident) params =
      (s, .httpStatus ident) := rfl

/-- C7: with `only_500 = true`, a coded HTTP error with code in `[400, 499]`
triggers no capture call and the original error is re-raised unchanged. -/
theorem error_handler_only_500_suppresses_4xx (s : SentryState) (ident : Nat)
    (code : Nat) (descr : Option String) (d params : Dict Val)
    (h1 : 400 ≤ code) (h2 : code ≤ 499) :
    Sentry.get_error_handler true s (.httpError ident (some code) descr d)
        params = (s, .httpError ident (some code) descr d) := by
  have hc : orCode (some code) = code := by
    cases code with
    | zero => omega
    | succ n => rfl
  have hlt : code < 500 := by omega
  simp [Sentry.get_error_handler, hc, hlt]

/-- Witness for C7 at code 404. -/
theorem error_handler_only_500_suppresses_4xx_witness :
    (400 ≤ 404 ∧ 404 ≤ 499) ∧
      Sentry.get_error_handler true sExample
          (.httpError 3 (some 404) none []) [] =
        (sExample, .httpError 3 (some 404) none []) :=
  ⟨⟨by decide, by decide⟩,
   error_handler_only_500_suppresses_4xx sExample 3 404 none [] []
     (by decide) (by decide)⟩

/-- C5: for a coded HTTP error the handler takes `code = ex.code or 500`
and, whenever the `only_500` suppression does not apply, captures exactly
once, with level `errors` when `code < 500` and `fatal` otherwise and
with extra `ex.to_dict()` updated with the route params, and re-raises the
original error unchanged. -/
theorem error_handler_http_error_reported (only_500 : Bool) (s : SentryState)
    (ident : Nat) (code : Option Nat) (descr : Option String)
    (d params : Dict Val) (h : ¬(only_500 = true ∧ orCode code < 500)) :
    (Sentry.get_error_handler only_500 s (.httpError ident code descr d)
        params).2 = .httpError ident code descr d ∧
    (Sentry.get_error_handler only_500 s (.httpError ident code descr d)
        params).1.client.captured =
      s.client.captured ++
        [⟨if orCode code < 500 then "errors" else "fatal",
          dictUpdate d params⟩] := by
  have hb : (only_500 && decide (orCode code < 500)) = false := by
    cases only_500 <;> simp_all
  simp [Sentry.get_error_handler, hb, RavenClient.captureException]

/-- Witness for C5: the 404 scenario with route param `id = 42`. -/
theorem error_handler_http_error_reported_witness :
    (¬(false = true ∧ orCode (some 404) < 500)) ∧
      ((Sentry.get_error_handler false sExample
          (.httpError 1 (some 404) none [("title", .vStr "Not Found")])
          [("id", .vNat 42)]).2 =
        .httpError 1 (some 404) none [("title", .vStr "Not Found")] ∧
       (Sentry.get_error_handler false sExample
          (.httpError 1 (some 404) none [("title", .vStr "Not Found")])
          [("id", .vNat 42)]).1.client.captured =
        sExample.client.captured ++
          [⟨if orCode (some 404) < 500 then "errors" else "fatal",
            dictUpdate [("title", .vStr "Not Found")] [("id", .vNat 42)]⟩]) :=
  ⟨by decide,
   error_handler_http_error_reported false sExample 1 (some 404) none
     [("title", .vStr "Not Found")] [("id", .vNat 42)] (by decide)⟩

/-- C6: an unclassified error is captured exactly once with level `fatal`
and extra equal to the route params only, and the re-raised error is a
generic internal-server error whose description is `str(ex)`; the original
error object does not propagate. -/
theorem error_handler_unclassified_replaced (only_500 : Bool)
    (s : SentryState) (ident : Nat) (strRep : String) (params : Dict Val) :
    (Sentry.get_error_handler only_500 s (.unclassified ident strRep)
        params).2 = HTTPInternalServerError "Unknown Error" strRep ∧
    (HTTPInternalServerError "Unknown Error" strRep).description =
      some strRep ∧
    (Sentry.get_error_handler only_500 s (.unclassified ident strRep)
        params).1.client.captured =
      s.client.captured ++ [⟨"fatal", params⟩] ∧
    (Sentry.get_error_handler only_500 s (.unclassified ident strRep)
        params).2 ≠ .unclassified ident strRep := by
  refine ⟨rfl, rfl, ?_, ?_⟩
  · simp [Sentry.get_error_handler, RavenClient.captureException]
  · simp [Sentry.get_error_handler, HTTPInternalServerError]

/-- C9: `Sentry.http_context` merges additively into the stored `request`
sub-mapping: from any state, attaching the one-key dict `a = 1` and then
the one-key dict `b = 2` leaves both keys present. -/
theorem http_context_additive (s : SentryState) :
    dictGet (((Sentry.http_context (Sentry.http_context s [("a", .vNat 1)])
        [("b", .vNat 2)]).client.contextRequest).getD []) "a" =
      some (.vNat 1) ∧
    dictGet (((Sentry.http_context (Sentry.http_context s [("a", .vNat 1)])
        [("b", .vNat 2)]).client.contextRequest).getD []) "b" =
      some (.vNat 2) := by
  constructor
  · show dictGet (dictSet (dictSet ((s.client.contextRequest).getD []) "a"
        (.vNat 1)) "b" (.vNat 2)) "a" = some (.vNat 1)
    rw [dictGet_dictSet_other _ _ _ _ (by decide)]
    exact dictGet_dictSet_same _ _ _
  · exact dictGet_dictSet_same _ _ _

/-- C10: a freshly constructed Sentry instance (before any capture or
clear-context call) has no `last_event_id` attribute, so the first
`process_response` raises `AttributeError` instead of completing and
clearing context. -/
theorem fresh_process_response_attribute_error (c : RavenClient)
    (resp : Response) :
    (Sentry.init c).last_event_id = none ∧
    process_response (Sentry.init c) resp =
      .error (.attributeError "last_event_id", Sentry.init c, resp) :=
  ⟨rfl, rfl⟩

/-- C1 fails on the code: the error handler captures through the raw raven
client, so the returned event id is not stored in `last_event_id`; the
subsequent `process_response` leaves the response without an `X-Sentry-ID`
header although an event was captured during the request (the transport
returned event id `42` here). -/
theorem error_handler_event_id_not_stored :
    ((Sentry.get_error_handler false sExample (.unclassified 7 "boom")
        []).1).client.captured = [⟨"fatal", []⟩] ∧
    ((Sentry.get_error_handler false sExample (.unclassified 7 "boom")
        []).1).last_event_id = some none ∧
    process_response ((Sentry.get_error_handler false sExample
        (.unclassified 7 "boom") []).1) respExample =
      .ok (Sentry.clear_context ((Sentry.get_error_handler false sExample
        (.unclassified 7 "boom") []).1), respExample) :=
  ⟨rfl, rfl, rfl⟩

/-- A body loader and a user loader with distinguishable results. -/
def loaderB : Loader := fun _ => .ok (.vStr "BODY")

/-- See `loaderB`. -/
def loaderU : Loader := fun _ => .ok (.vStr "USER")

/-- A Sentry configuration with both loaders set by keyword. -/
def cfgExample : SentryConfig :=
  { body_context_loader := some loaderB, user_context_loader := some loaderU }

/-- C2 fails on the code: the `middleware` property passes the loaders
positionally in the wrong order, so the configured body loader becomes the
user-context loader of the middleware and conversely; running
`process_request` puts the user-loader result under the `body` key of the
http context and the body-loader result into the user context. -/
theorem middleware_swaps_loaders :
    (Sentry.middleware cfgExample).user_context_loader = some loaderB ∧
    (Sentry.middleware cfgExample).body_context_loader = some loaderU ∧
    dictGet (((process_request (Sentry.middleware cfgExample) sExample
        reqExample).client.contextRequest).getD []) "body" =
      some (.vStr "USER") ∧
    (process_request (Sentry.middleware cfgExample) sExample
        reqExample).client.contextUser = some (.vStr "BODY") := by
  refine ⟨rfl, rfl, ?_, rfl⟩
  rfl

/-- A state with a populated context whose `last_event_id` attribute was
never assigned. -/
def sDirty : SentryState :=
  { client := { contextRequest := some [("url", .vStr "u")],
                contextUser := none, captured := [], messages := [],
                loggedErrors := [], nextEventIds := [] },
    last_event_id := none }

/-- C3 counterexample: when the header logic raises (here: reading the
absent `last_event_id` attribute), `process_response` exits without calling
`clear_context`, leaving the context store populated. -/
theorem process_response_no_clear_on_raise :
    process_response sDirty respExample =
      .error (.attributeError "last_event_id", sDirty, respExample) ∧
    sDirty.client.contextRequest ≠ none := by
  refine ⟨rfl, ?_⟩
  simp [sDirty]

/-- C3 amended: `clear_context` runs exactly on the normal-completion path
of `process_response`: whenever the `last_event_id` attribute is assigned
the step completes, calling `clear_context` once, and the returned state
has an empty context store and `last_event_id = None`; when the header
logic raises, `clear_context` is not called. -/
theorem process_response_clears_on_success (s : SentryState)
    (resp : Response) (eid : Option String)
    (h : s.last_event_id = some eid) :
    (∃ resp2, process_response s resp =
        .ok (Sentry.clear_context s, resp2)) ∧
    (Sentry.clear_context s).client.contextRequest = none ∧
    (Sentry.clear_context s).client.contextUser = none ∧
    (Sentry.clear_context s).last_event_id = some none := by
  refine ⟨?_, rfl, rfl, rfl⟩
  cases hb : truthyEventId eid
  · exact ⟨resp, by simp [process_response, h, hb]⟩
  · exact ⟨{ resp with
        headers := dictSet resp.headers "X-Sentry-ID" (Val.vStr (eid.getD "")) },
      by simp [process_response, h, hb]⟩

/-- Witness for C3 amended, on a state whose attribute holds `None`. -/
theorem process_response_clears_on_success_witness :
    (∃ resp2, process_response sExample respExample =
        .ok (Sentry.clear_context sExample, resp2)) ∧
    (Sentry.clear_context sExample).client.contextRequest = none ∧
    (Sentry.clear_context sExample).client.contextUser = none ∧
    (Sentry.clear_context sExample).last_event_id = some none :=
  process_response_clears_on_success sExample respExample none rfl

/-- A body loader that raises. -/
def failingLoader : Loader := fun _ => .error "boom"

/-- Middleware whose body loader raises and with no user loader. -/
def mFailBody : SentryMiddleware :=
  { user_context_loader := none, body_context_loader := some failingLoader }

/-- C4 counterexample: the body-loader exception is caught and logged and
the request is not aborted, but `http_context` is never reached, so the
request context is not attached. -/
theorem body_loader_failure_drops_context :
    (process_request mFailBody sExample reqExample).client.contextRequest =
      none ∧
    (process_request mFailBody sExample reqExample).client.loggedErrors =
      ["boom"] := ⟨rfl, rfl⟩

/-- Middleware whose body loader succeeds and with no user loader. -/
def mOkBody : SentryMiddleware :=
  { user_context_loader := none, body_context_loader := some loaderB }

/-- C4 amended: with no body loader, `process_request` attaches the built
request context via `http_context`; when the configured body loader
succeeds, its result is attached under the `body` key of that context;
when the body loader raises, the exception is caught and logged and
processing continues with the user phase, but the http context is not
attached for that request. -/
theorem process_request_body_phase (m : SentryMiddleware) (s : SentryState)
    (req : Request) (L : Loader) (b : Val) (e : String) :
    (m.body_context_loader = none →
      process_request m s req =
        process_request_try2 m (Sentry.http_context s
          (get_request_context req)) req) ∧
    (m.body_context_loader = some L → L req = .ok b →
      process_request m s req =
        process_request_try2 m (Sentry.http_context s
          (dictSet (get_request_context req) "body" b)) req) ∧
    (m.body_context_loader = some L → L req = .error e →
      process_request m s req =
        process_request_try2 m (Sentry.log_exception s e) req) := by
  refine ⟨?_, ?_, ?_⟩
  · intro h
    simp [process_request, process_request_try1, h]
  · intro h h2
    simp [process_request, process_request_try1, h, h2]
  · intro h h2
    simp [process_request, process_request_try1, h, h2]

/-- Witness for C4 amended, at a succeeding and at a raising body
loader. -/
theorem process_request_body_phase_witness :
    (process_request mOkBody sExample reqExample =
      process_request_try2 mOkBody (Sentry.http_context sExample
        (dictSet (get_request_context reqExample) "body" (.vStr "BODY")))
        reqExample) ∧
    (process_request mFailBody sExample reqExample =
      process_request_try2 mFailBody (Sentry.log_exception sExample "boom")
        reqExample) :=
  ⟨(process_request_body_phase mOkBody sExample reqExample loaderB
      (.vStr "BODY") "boom").2.1 rfl rfl,
   (process_request_body_phase mFailBody sExample reqExample failingLoader
      (.vStr "BODY") "boom").2.2 rfl rfl⟩

end FalconSentry
